import Mathlib

/-!
Shallow embedding of the POS backend's sale transaction engine, stock
ledger and authorization gate (source: `src/server/routes.ts`, which
bundles the Express routes together with the in-memory `MemStorage`
implementation).

Modelling conventions:
* TypeScript `Map<string, T>` becomes a function `String → Option T`
  (`StrMap`); the `users` map, which the code also iterates by value
  (`getUserByUsername`), is kept as an association list.
* Decimal-string money/quantity fields (`"89.99"`, `"45.000"`) and the
  `parseFloat` / `toFixed` round trips on them are modelled over `Rat`:
  `toFixed(2)` is `round2`, `toFixed(3)` is `round3` (round half up).
* `randomUUID()` id generation is modelled by a deterministic counter
  (`nextId`) stored in the storage state.
* Timestamps (`saleDate`, `movementDate`) are irrelevant to every claim
  considered here and are omitted from the records.
* An unexpected runtime exception inside the commit phase of
  `processSaleAtomic` is modelled by a crash oracle `crash : Option Nat`
  naming the index of the primitive write operation that throws
  (0 = `createSale`, then 3 per cart line: `createSaleItem`,
  `updateProductStock`, `createInventoryMovement`); the `catch` branch of
  the source restores only `this.products`, which is mirrored exactly.
-/

namespace POS

/-- `Map<string, T>` as a lookup function. -/
abbrev StrMap (α : Type) := String → Option α

/-- `map.get(k)`. -/
def mapGet (m : StrMap α) (k : String) : Option α := m k

/-- `map.set(k, v)`. -/
def mapSet (m : StrMap α) (k : String) (v : α) : StrMap α :=
  fun q => if q = k then some v else m q

/-- `map.delete(k)`. -/
def mapDelete (m : StrMap α) (k : String) : StrMap α :=
  fun q => if q = k then none else m q

/-- `new Map()`. -/
def mapEmpty : StrMap α := fun _ => none

/-- JS `x.toFixed(2)` on a non-negative decimal, as exact rationals:
round half up to two decimal places. -/
def round2 (q : Rat) : Rat := ((⌊q * 100 + 1/2⌋ : Int) : Rat) / 100

/-- JS `x.toFixed(3)`, as exact rationals: round half up to three
decimal places. -/
def round3 (q : Rat) : Rat := ((⌊q * 1000 + 1/2⌋ : Int) : Rat) / 1000

/-- A rational that is an exact multiple of 0.001 — the granularity of
the three-decimal quantity serialization used by the system. -/
def is3dec (q : Rat) : Prop := (q * 1000).den = 1

instance (q : Rat) : Decidable (is3dec q) := by unfold is3dec; infer_instance

/-- `Product` record (decimal-string fields as `Rat`). -/
structure Product where
  id : String
  name : String
  sku : String
  sellingPrice : Rat
  stock : Rat
  minStockLevel : Rat
  isActive : Bool
  storeId : String
deriving Repr, DecidableEq

/-- `User` record; `storeId` is absent (`undefined`) for the seeded
admin, hence `Option`. -/
structure User where
  id : String
  username : String
  password : String
  role : String
  isActive : Bool
  storeId : Option String
deriving Repr, DecidableEq

/-- `Sale` record. -/
structure Sale where
  id : String
  customerId : Option String
  userId : String
  storeId : String
  total : Rat
  tax : Rat
  discount : Rat
  paymentMethod : String
  status : String
deriving Repr, DecidableEq

/-- `SaleItem` record. -/
structure SaleItem where
  id : String
  saleId : String
  productId : String
  quantity : Rat
  unitPrice : Rat
  total : Rat
deriving Repr, DecidableEq

/-- `InventoryMovement` record; the source field `type` is spelled
`mtype` (`type` is a Lean keyword).  Sale-generated movements carry no
`storeId`, hence `Option`. -/
structure Movement where
  id : String
  productId : String
  mtype : String
  quantity : Rat
  reason : String
  userId : String
  storeId : Option String
deriving Repr, DecidableEq

/-- The fields of `MemStorage` that the verified claims touch, plus the
id counter standing in for `randomUUID`. -/
structure Storage where
  users : List (String × User)
  products : StrMap Product
  sales : StrMap Sale
  saleItems : StrMap (List SaleItem)
  inventoryMovements : StrMap (List Movement)
  nextId : Nat

/-- `storage.getUser(id)`. -/
def getUser (s : Storage) (id : String) : Option User :=
  (s.users.find? (fun kv => kv.1 == id)).map (fun kv => kv.2)

/-- `storage.getUserByUsername(username)` — linear scan over the map
values, as in the source. -/
def getUserByUsername (s : Storage) (username : String) : Option User :=
  (s.users.find? (fun kv => kv.2.username == username)).map (fun kv => kv.2)

/-- `storage.getProduct(id)`. -/
def getProduct (s : Storage) (id : String) : Option Product :=
  mapGet s.products id

/-- Partial product update payload (`Partial<InsertProduct>`), limited
to the fields the claims exercise. -/
structure ProductPatch where
  name : Option String := none
  sellingPrice : Option Rat := none
  stock : Option Rat := none
  isActive : Option Bool := none
deriving Repr, DecidableEq

/-- Spread-merge `{ ...product, ...productData }`. -/
def applyPatch (p : Product) (d : ProductPatch) : Product :=
  { p with
    name := d.name.getD p.name
    sellingPrice := d.sellingPrice.getD p.sellingPrice
    stock := d.stock.getD p.stock
    isActive := d.isActive.getD p.isActive }

/-- `storage.updateProduct(id, productData)`. -/
def updateProduct (s : Storage) (id : String) (d : ProductPatch) :
    Option Product × Storage :=
  match mapGet s.products id with
  | none => (none, s)
  | some p =>
    let p' := applyPatch p d
    (some p', { s with products := mapSet s.products id p' })

/-- `storage.updateProductStock(productId, quantity)` — adds the signed
delta and stores `newStock.toFixed(3)`; returns `false` when the
product does not exist (and leaves the store untouched). -/
def updateProductStock (s : Storage) (productId : String) (quantity : Rat) :
    Bool × Storage :=
  match mapGet s.products productId with
  | none => (false, s)
  | some p =>
    (true, { s with
      products := mapSet s.products productId
        { p with stock := round3 (p.stock + quantity) } })

/-- `storage.getSaleItems(saleId)`. -/
def getSaleItems (s : Storage) (saleId : String) : List SaleItem :=
  (mapGet s.saleItems saleId).getD []

/-- Movements recorded for a product
(`storage.getInventoryMovements(productId)`). -/
def movementsFor (s : Storage) (productId : String) : List Movement :=
  (mapGet s.inventoryMovements productId).getD []

/-- `InsertSale` as assembled by the sales route; fields the source
defaults with `??` are optional here. -/
structure InsertSale where
  customerId : Option String
  userId : String
  storeId : String
  total : Rat
  tax : Option Rat
  discount : Option Rat
  paymentMethod : String
  status : Option String
deriving Repr, DecidableEq

/-- `storage.createSale(insertSale)` — assigns a fresh id and applies
the `??` defaults of the source. -/
def createSale (s : Storage) (d : InsertSale) : Sale × Storage :=
  let id := "id" ++ toString s.nextId
  let sale : Sale :=
    { id := id
      customerId := d.customerId
      userId := d.userId
      storeId := d.storeId
      total := d.total
      tax := d.tax.getD 0
      discount := d.discount.getD 0
      paymentMethod := d.paymentMethod
      status := d.status.getD "completed" }
  (sale, { s with sales := mapSet s.sales id sale, nextId := s.nextId + 1 })

/-- `InsertSaleItem`. -/
structure InsertSaleItem where
  saleId : String
  productId : String
  quantity : Rat
  unitPrice : Rat
  total : Rat
deriving Repr, DecidableEq

/-- `storage.createSaleItem(insertSaleItem)` — appends to the
per-sale list. -/
def createSaleItem (s : Storage) (d : InsertSaleItem) : SaleItem × Storage :=
  let id := "id" ++ toString s.nextId
  let item : SaleItem :=
    { id := id, saleId := d.saleId, productId := d.productId
      quantity := d.quantity, unitPrice := d.unitPrice, total := d.total }
  let existing := (mapGet s.saleItems d.saleId).getD []
  (item, { s with
    saleItems := mapSet s.saleItems d.saleId (existing ++ [item])
    nextId := s.nextId + 1 })

/-- `InsertInventoryMovement`. -/
structure InsertMovement where
  productId : String
  mtype : String
  quantity : Rat
  reason : String
  userId : String
  storeId : Option String
deriving Repr, DecidableEq

/-- `storage.createInventoryMovement(insertMovement)` — appends to the
per-product audit list. -/
def createInventoryMovement (s : Storage) (d : InsertMovement) :
    Movement × Storage :=
  let id := "id" ++ toString s.nextId
  let m : Movement :=
    { id := id, productId := d.productId, mtype := d.mtype
      quantity := d.quantity, reason := d.reason, userId := d.userId
      storeId := d.storeId }
  let existing := (mapGet s.inventoryMovements d.productId).getD []
  (m, { s with
    inventoryMovements := mapSet s.inventoryMovements d.productId (existing ++ [m])
    nextId := s.nextId + 1 })

/-- Structured form of the error strings `processSaleAtomic` returns:
which product was missing or short, and the available / requested
amounts quoted in the message. -/
inductive SaleError
  | productNotFound (productId : String)
  | insufficientStock (name : String) (available requested : Rat)
  | unexpected (msg : String)
deriving Repr, DecidableEq

/-- The `{ sale, items, error? }` result of `processSaleAtomic`; the
source returns `{} as Sale` alongside an error, modelled as `none`. -/
structure SaleOutcome where
  sale : Option Sale
  items : List SaleItem
  error : Option SaleError
deriving Repr, DecidableEq

/-- A validated line item as passed to `processSaleAtomic`
(`{ productId, quantity, unitPrice, total }`). -/
structure CartItem where
  productId : String
  quantity : Rat
  unitPrice : Rat
  total : Rat
deriving Repr, DecidableEq

/-- Step 1 of `processSaleAtomic`: walk the items in order against the
current products; first missing product or short stock aborts. -/
def validateItems (s : Storage) : List CartItem → Option SaleError
  | [] => none
  | it :: rest =>
    match mapGet s.products it.productId with
    | none => some (.productNotFound it.productId)
    | some p =>
      if p.stock < it.quantity then
        some (.insufficientStock p.name p.stock it.quantity)
      else validateItems s rest

/-- Step 4 of `processSaleAtomic`: per line, create the `SaleItem`,
decrement stock, append an `"out"` movement.  `crash = some k` models
an unexpected exception thrown by the primitive write numbered `k`
(the numbering starts at 1 here because `createSale` is operation 0);
the `Bool` is `false` when an exception escaped, in which case the
state already contains every write that happened before the throw. -/
def commitItems (userId saleId : String) (crash : Option Nat) :
    List CartItem → Storage → List SaleItem → Nat → Storage × List SaleItem × Bool
  | [], s, acc, _ => (s, acc, true)
  | it :: rest, s, acc, n =>
    if crash = some n then (s, acc, false)
    else
      let r1 := createSaleItem s
        { saleId := saleId, productId := it.productId, quantity := it.quantity
          unitPrice := it.unitPrice, total := it.total }
      if crash = some (n + 1) then (r1.2, acc ++ [r1.1], false)
      else
        let r2 := updateProductStock r1.2 it.productId (-it.quantity)
        if crash = some (n + 2) then (r2.2, acc ++ [r1.1], false)
        else
          let r3 := createInventoryMovement r2.2
            { productId := it.productId, mtype := "out", quantity := it.quantity
              reason := "Sale #" ++ saleId, userId := userId, storeId := none }
          commitItems userId saleId crash rest r3.2 (acc ++ [r1.1]) (n + 3)

/-- `storage.processSaleAtomic(saleData, items)`.  Mirrors the source
exactly: validate all lines first; snapshot `this.products`; create the
sale header and the per-line writes; on an exception restore only the
products snapshot and report the error — the sale, sale items and
movements written before the throw are left in place. -/
def processSaleAtomic (s : Storage) (saleData : InsertSale)
    (items : List CartItem) (crash : Option Nat) : Storage × SaleOutcome :=
  match validateItems s items with
  | some e => (s, { sale := none, items := [], error := some e })
  | none =>
    let originalProducts := s.products
    if crash = some 0 then
      ({ s with products := originalProducts },
       { sale := none, items := [], error := some (.unexpected "commit failure") })
    else
      let r := createSale s saleData
      let c := commitItems saleData.userId r.1.id crash items r.2 [] 1
      if c.2.2 then
        (c.1, { sale := some r.1, items := c.2.1, error := none })
      else
        ({ c.1 with products := originalProducts },
         { sale := none, items := [], error := some (.unexpected "commit failure") })

/-- Errors of the `POST /api/sales` validation loop. -/
inductive RouteError
  | itemsRequired
  | invalidPayment
  | invalidItem
  | productMissing (productId : String)
  | productWrongStore (name : String)
  | productInactive (name : String)
  | insufficient (name : String) (available requested : Rat)
deriving Repr, DecidableEq

/-- A raw request line item.  `clientUnitPrice` stands for any price
field a client may include; the handler never reads it. -/
structure ReqItem where
  productId : String
  quantity : Rat
  clientUnitPrice : Rat
deriving Repr, DecidableEq

/-- The JSON body of `POST /api/sales`.  `clientTax` / `clientTotal`
stand for totals a client may submit; the handler destructures only
`items`, `paymentMethod` and `customerId`. -/
structure SalesRequestBody where
  items : List ReqItem
  paymentMethod : String
  customerId : Option String
  clientTax : Option Rat
  clientTotal : Option Rat
deriving Repr, DecidableEq

/-- The per-item loop of the sales route: reject invalid lines, resolve
each product, check store, active flag and stock, and accumulate the
(unrounded) subtotal together with the validated items whose prices are
the server-side `sellingPrice` (stored as `toFixed(2)` strings). -/
def buildValidatedItems (s : Storage) (reqStoreId : String) :
    List ReqItem → Except RouteError (List CartItem × Rat)
  | [] => .ok ([], 0)
  | it :: rest =>
    if it.productId = "" ∨ it.quantity ≤ 0 then .error .invalidItem
    else
      match mapGet s.products it.productId with
      | none => .error (.productMissing it.productId)
      | some p =>
        if p.storeId ≠ reqStoreId then .error (.productWrongStore p.name)
        else if p.isActive = false then .error (.productInactive p.name)
        else if p.stock < it.quantity then
          .error (.insufficient p.name p.stock it.quantity)
        else
          match buildValidatedItems s reqStoreId rest with
          | .error e => .error e
          | .ok (vs, sub) =>
            .ok ({ productId := it.productId, quantity := it.quantity
                   unitPrice := round2 p.sellingPrice
                   total := round2 (p.sellingPrice * it.quantity) } :: vs,
                 p.sellingPrice * it.quantity + sub)

/-- Responses of `POST /api/sales` (201 / 400 / 403). -/
inductive SalesResponse
  | badRequest (e : RouteError)
  | forbiddenStore (name : String)
  | saleFailed (e : SaleError)
  | created (sale : Sale) (items : List SaleItem)
      (calculatedSubtotal calculatedTax calculatedTotal : Rat)
deriving Repr, DecidableEq

/-- The `POST /api/sales` handler, after the middleware chain resolved
the principal (`userId`) and the store context (`reqStoreId`).  Totals
are recomputed server-side with the fixed 8.5% tax rate and the
client-supplied price fields are never consulted. -/
def postSales (s : Storage) (userId reqStoreId : String)
    (body : SalesRequestBody) (crash : Option Nat) : Storage × SalesResponse :=
  if body.items = [] then (s, .badRequest .itemsRequired)
  else if ¬ (["cash", "card", "digital"].contains body.paymentMethod) then
    (s, .badRequest .invalidPayment)
  else
    match buildValidatedItems s reqStoreId body.items with
    | .error (.productWrongStore n) => (s, .forbiddenStore n)
    | .error e => (s, .badRequest e)
    | .ok (validatedItems, subtotal) =>
      let tax := subtotal * (17 / 200)
      let total := subtotal + tax
      let saleData : InsertSale :=
        { customerId :=
            match body.customerId with
            | none => none
            | some c => if c = "walk-in" then none else some c
          userId := userId, storeId := reqStoreId
          total := round2 total, tax := some (round2 tax), discount := some 0
          paymentMethod := body.paymentMethod, status := some "completed" }
      let r := processSaleAtomic s saleData validatedItems crash
      match r.2.error with
      | some e => (r.1, .saleFailed e)
      | none =>
        match r.2.sale with
        | some sale =>
          (r.1, .created sale r.2.items (round2 subtotal) (round2 tax) (round2 total))
        | none => (r.1, .saleFailed (.unexpected "commit failure"))

/-- Subtotal as the specification words it: the sum over cart lines of
the product's current `sellingPrice` times the requested quantity
(missing products contribute nothing; the handler rejects those
requests anyway).  Spec-side definition, for comparison with the
handler's arithmetic. -/
def specSubtotal (s : Storage) (items : List ReqItem) : Rat :=
  (items.map (fun it =>
    match mapGet s.products it.productId with
    | some p => p.sellingPrice * it.quantity
    | none => 0)).sum

/-- The session value stored in the process-wide `sessions` map. -/
structure Session where
  userId : String
  username : String
  role : String
deriving Repr, DecidableEq

/-- The process-wide `sessions: Map<string, …>`. -/
abbrev Sessions := StrMap Session

/-- Outcome of a middleware stage: fall through, or short-circuit with
a 401 or 403 response. -/
inductive MWResult
  | next
  | unauthorizedRes (msg : String)
  | forbiddenRes (msg : String)
deriving Repr, DecidableEq

/-- The `requireAuth` middleware: look the bearer token up; 401 if
absent. -/
def requireAuthCheck (sessions : Sessions) (token : String) : MWResult :=
  match sessions token with
  | none => .unauthorizedRes "Authentication required"
  | some _ => .next

/-- The `requireRole(roles)` middleware: 403 unless an authenticated
principal's role is literally a member of the whitelist. -/
def requireRoleCheck (roles : List String) (user : Option Session) : MWResult :=
  match user with
  | none => .forbiddenRes "Insufficient permissions"
  | some u =>
    if roles.contains u.role then .next
    else .forbiddenRes "Insufficient permissions"

/-- The `validateStoreAccess` middleware, after `requireAuth` and
`requireStore` populated the principal and the store context: the
`administrator` role bypasses the check, otherwise the principal's
assigned store must equal the requested store. -/
def validateStoreAccess (s : Storage) (sess : Session) (reqStoreId : String) :
    MWResult :=
  if sess.role = "administrator" then .next
  else
    match getUser s sess.userId with
    | none => .unauthorizedRes "User not found"
    | some u =>
      if u.storeId ≠ some reqStoreId then
        .forbiddenRes "Access denied: You don't have permission to access this store"
      else .next

/-- The body of `POST /api/auth/login`: resolve the username, compare
the password, require the account active, then register the session
under a fresh token (the random token is a parameter here). -/
def loginAttempt (s : Storage) (sessions : Sessions)
    (username password token : String) : Sessions :=
  match getUserByUsername s username with
  | none => sessions
  | some u =>
    if u.password ≠ password then sessions
    else if u.isActive = false then sessions
    else mapSet sessions token
      { userId := u.id, username := u.username, role := u.role }

/-- Session-relevant request events: a login attempt (with the token the
server would mint on success), a logout of a token, and any other
authenticated request (which never touches the session map). -/
inductive AuthEvent
  | login (username password token : String)
  | logout (token : String)
  | request (token : String)
deriving Repr, DecidableEq

/-- Effect of one event on the session map.  `POST /api/auth/logout`
deletes the presented token; plain requests only read. -/
def applyAuthEvent (s : Storage) (sessions : Sessions) : AuthEvent → Sessions
  | .login u p tok => loginAttempt s sessions u p tok
  | .logout tok => mapDelete sessions tok
  | .request _ => sessions

/-- Effect of a sequence of events on the session map. -/
def applyAuthEvents (s : Storage) (sessions : Sessions) :
    List AuthEvent → Sessions
  | [] => sessions
  | e :: es => applyAuthEvents s (applyAuthEvent s sessions e) es

/-- Whether an event is a login that succeeds and mints exactly the
token `t`. -/
def mintsToken (s : Storage) (t : String) : AuthEvent → Bool
  | .login u p tok =>
    tok == t &&
      (match getUserByUsername s u with
       | none => false
       | some usr => usr.password == p && usr.isActive)
  | _ => false

/-- Responses of `GET /api/sales/:id/items`: the route is gated by
`requireAuth` only and then returns the stored items unconditionally. -/
inductive ItemsResponse
  | authMissing
  | okItems (items : List SaleItem)
deriving Repr, DecidableEq

/-- The `GET /api/sales/:id/items` handler with its middleware chain:
no store-scope check of any kind is applied. -/
def getSaleItemsRoute (sessions : Sessions) (s : Storage)
    (token saleId : String) : ItemsResponse :=
  match sessions token with
  | none => .authMissing
  | some _ => .okItems (getSaleItems s saleId)

/-- Responses of `POST /api/inventory/adjustment`. -/
inductive AdjustResponse
  | authMissing
  | forbiddenRole
  | userMissing
  | createdMovement (m : Movement)
deriving Repr, DecidableEq

/-- The `POST /api/inventory/adjustment` handler with its middleware
chain (`requireAuth`, `requireRole(["administrator","owner",
"administrasi"])`).  Mirrors the source: the boolean result of
`updateProductStock` is discarded, and the movement is recorded and
returned with 201 regardless. -/
def inventoryAdjustmentRoute (sessions : Sessions) (s : Storage)
    (token productId : String) (quantity : Rat) (reason : String) :
    Storage × AdjustResponse :=
  match sessions token with
  | none => (s, .authMissing)
  | some sess =>
    if ¬ (["administrator", "owner", "administrasi"].contains sess.role) then
      (s, .forbiddenRole)
    else
      match getUser s sess.userId with
      | none => (s, .userMissing)
      | some u =>
        let r1 := updateProductStock s productId quantity
        let r2 := createInventoryMovement r1.2
          { productId := productId, mtype := "adjustment", quantity := quantity
            reason := reason, userId := sess.userId, storeId := u.storeId }
        (r2.2, .createdMovement r2.1)

/-- A committed storage operation, as the claims about sequences of
operations need it: a sale processed by the engine (no injected crash)
or a stock adjustment applied by the adjustment handler's body. -/
inductive Op
  | sell (saleData : InsertSale) (items : List CartItem)
  | adjust (productId : String) (quantity : Rat)
      (reason userId : String) (storeId : Option String)

/-- Effect of one operation on the store. -/
def applyOp (s : Storage) : Op → Storage
  | .sell d items => (processSaleAtomic s d items none).1
  | .adjust pid q r uid sid =>
    let r1 := updateProductStock s pid q
    (createInventoryMovement r1.2
      { productId := pid, mtype := "adjustment", quantity := q
        reason := r, userId := uid, storeId := sid }).2

/-- Effect of a sequence of operations. -/
def runOps (s : Storage) : List Op → Storage
  | [] => s
  | op :: rest => runOps (applyOp s op) rest

/-- Sum of a movement list with `"out"` movements counted negatively —
the sign convention the engine actually realises, since sale movements
are stored with positive `quantity` and type `"out"`. -/
def signedSumList (ms : List Movement) : Rat :=
  (ms.map (fun m => if m.mtype = "out" then -m.quantity else m.quantity)).sum

/-- `signedSumList` over a product's recorded movements. -/
def signedMovementSum (s : Storage) (productId : String) : Rat :=
  signedSumList (movementsFor s productId)

/-- Sum of the movement quantities exactly as stored. -/
def movementQuantitySum (s : Storage) (productId : String) : Rat :=
  ((movementsFor s productId).map (fun m => m.quantity)).sum

/-- The audit-ledger balance: for every existing product, the signed
movement sum equals current stock minus the product's initial stock. -/
def ledgerBalanced (products : StrMap Product)
    (movements : StrMap (List Movement)) (initialStock : String → Rat) : Prop :=
  ∀ pid p, mapGet products pid = some p →
    signedSumList ((mapGet movements pid).getD []) = p.stock - initialStock pid

/-- Every stored stock value is a multiple of 0.001 (as the
three-decimal `toFixed(3)` serialization keeps it). -/
def stocks3dec (products : StrMap Product) : Prop :=
  ∀ pid p, mapGet products pid = some p → is3dec p.stock

/-- All quantities an operation moves are multiples of 0.001. -/
def op3dec : Op → Prop
  | .sell _ items => ∀ it ∈ items, is3dec it.quantity
  | .adjust _ q _ _ _ => is3dec q

/-- Chained side conditions along an operation list. -/
def ops3dec : List Op → Prop
  | [] => True
  | op :: rest => op3dec op ∧ ops3dec rest

/-- Every product's stock is non-negative. -/
def allStockNonneg (products : StrMap Product) : Prop :=
  ∀ pid p, mapGet products pid = some p → 0 ≤ p.stock

/-- Every line of the cart names an existing product whose current
stock covers the requested quantity. -/
def canSatisfy (products : StrMap Product) (items : List CartItem) : Prop :=
  ∀ it ∈ items, ∃ p, mapGet products it.productId = some p ∧
    it.quantity ≤ p.stock

/-- The default user seeded by `initializeData` — note the role string
is `"admin"`, not `"administrator"` (the `randomUUID` id is rendered as
a fixed string here). -/
def seedAdminUser : User :=
  { id := "admin-id", username := "admin", password := "admin123"
    role := "admin", isActive := true, storeId := none }

/-- The session minted for the seeded default user on login. -/
def seedAdminSession : Session :=
  { userId := seedAdminUser.id, username := seedAdminUser.username
    role := seedAdminUser.role }

/-! Concrete sample data used by counterexamples and witnesses. -/

/-- A sample product: price 20.00, stock 45.000, in store `storeA`. -/
def sampleProduct : Product :=
  { id := "p1", name := "Widget", sku := "W-1", sellingPrice := 20
    stock := 45, minStockLevel := 5, isActive := true, storeId := "storeA" }

/-- A sample staff user assigned to `storeA` with an adjustment-capable
role. -/
def sampleUser : User :=
  { id := "u1", username := "alice", password := "pw"
    role := "administrasi", isActive := true, storeId := some "storeA" }

/-- Sample storage: one product, one user, nothing sold yet. -/
def sampleStorage : Storage :=
  { users := [("u1", sampleUser)]
    products := mapSet mapEmpty "p1" sampleProduct
    sales := mapEmpty
    saleItems := mapEmpty
    inventoryMovements := mapEmpty
    nextId := 0 }

/-- A live session for `sampleUser` under token `tok1`. -/
def sampleSessions : Sessions :=
  mapSet mapEmpty "tok1"
    { userId := "u1", username := "alice", role := "administrasi" }

/-- Sale header data as the sales route would assemble it for a
3-unit cart of `sampleProduct`. -/
def sampleSaleData : InsertSale :=
  { customerId := none, userId := "u1", storeId := "storeA"
    total := 651/10, tax := some (51/10), discount := some 0
    paymentMethod := "cash", status := some "completed" }

/-- A validated 3-unit line of `sampleProduct`. -/
def sampleItem : CartItem :=
  { productId := "p1", quantity := 3, unitPrice := 20, total := 60 }

/-- Cashier of store `A`, for the tenant-isolation counterexample. -/
def cashierA : User :=
  { id := "u2", username := "bob", password := "pw2"
    role := "cashier", isActive := true, storeId := some "A" }

/-- A committed sale belonging to store `B`. -/
def saleInB : Sale :=
  { id := "s1", customerId := none, userId := "u9", storeId := "B"
    total := 217/10, tax := 17/10, discount := 0
    paymentMethod := "cash", status := "completed" }

/-- The single line item of `saleInB`. -/
def saleInBItem : SaleItem :=
  { id := "si1", saleId := "s1", productId := "pB", quantity := 1
    unitPrice := 20, total := 20 }

/-- Storage for the tenant-isolation counterexample: the principal is
assigned to store `A`, the sale and its items belong to store `B`. -/
def crossStoreStorage : Storage :=
  { users := [("u2", cashierA)]
    products := mapEmpty
    sales := mapSet mapEmpty "s1" saleInB
    saleItems := mapSet mapEmpty "s1" [saleInBItem]
    inventoryMovements := mapEmpty
    nextId := 0 }

/-- A live session for `cashierA` under token `tok2`. -/
def crossStoreSessions : Sessions :=
  mapSet mapEmpty "tok2"
    { userId := "u2", username := "bob", role := "cashier" }

/-- Storage holding only the seeded default admin account. -/
def seededStorage : Storage :=
  { users := [("admin-id", seedAdminUser)]
    products := mapEmpty
    sales := mapEmpty
    saleItems := mapEmpty
    inventoryMovements := mapEmpty
    nextId := 0 }

/-- An oversized request line (100 units against a stock of 45). -/
def bigItem : CartItem :=
  { productId := "p1", quantity := 100, unitPrice := 20, total := 2000 }

/-- The movement the adjustment endpoint records for a product id that
does not exist. -/
def ghostMovement : Movement :=
  { id := "id0", productId := "ghost", mtype := "adjustment", quantity := 5
    reason := "found extra", userId := "u1", storeId := some "storeA" }

/-- The adjustment run against a missing product id. -/
def ghostRun : Storage × AdjustResponse :=
  inventoryAdjustmentRoute sampleSessions sampleStorage "tok1" "ghost" 5 "found extra"

/-- A sale attempt whose third commit-phase write (the inventory
movement of the first line) throws: the sale header and the sale item
were already written, the stock decrement happened and is rolled back. -/
def crashedSaleRun : Storage × SaleOutcome :=
  processSaleAtomic sampleStorage sampleSaleData [sampleItem] (some 3)

/-- The adjustment run that drives the sample product's stock negative. -/
def negativeAdjustRun : Storage × AdjustResponse :=
  inventoryAdjustmentRoute sampleSessions sampleStorage "tok1" "p1" (-50) "shrinkage"

/-- One successful 3-unit sale of the sample product. -/
def oneSaleRun : Storage :=
  applyOp sampleStorage (.sell sampleSaleData [sampleItem])

/-- The request body of an honest 3-unit cart for the sample product. -/
def honestBody : SalesRequestBody :=
  { items := [{ productId := "p1", quantity := 3, clientUnitPrice := 20 }]
    paymentMethod := "cash", customerId := none
    clientTax := none, clientTotal := none }

/-- A trace of requests none of which is a successful login minting
token `t9`: a failed login (wrong password), a plain request, and a
logout of a different token. -/
def authTrace : List AuthEvent :=
  [.login "alice" "wrong" "t9", .request "t9", .logout "other"]

/-- The subtotal the sales route accumulates for `honestBody`
(written exactly as the loop builds it). -/
def c5Sub : Rat := 20 * 3 + 0

/-- The sale item committed for `honestBody`. -/
def c5SaleItem : SaleItem :=
  { id := "id1", saleId := "id0", productId := "p1", quantity := 3
    unitPrice := round2 20, total := round2 (20 * 3) }

/-- The sale header committed for `honestBody`: totals are the
server-side subtotal with 8.5% tax, rounded to two decimals. -/
def c5Sale : Sale :=
  { id := "id0", customerId := none, userId := "u1", storeId := "storeA"
    total := round2 (c5Sub + c5Sub * (17 / 200))
    tax := round2 (c5Sub * (17 / 200)), discount := 0
    paymentMethod := "cash", status := "completed" }

/-! General lemmas about the map model and the decimal roundings. -/

/-- Looking up the key just set returns the new value. -/
theorem mapGet_mapSet_self (m : StrMap α) (k : String) (v : α) :
    mapGet (mapSet m k v) k = some v := by
  simp [mapGet, mapSet]

/-- Setting one key leaves every other key unchanged. -/
theorem mapGet_mapSet_ne (m : StrMap α) {k k' : String} (v : α) (h : k' ≠ k) :
    mapGet (mapSet m k v) k' = mapGet m k' := by
  simp [mapGet, mapSet, h]

/-- Case form of lookup after set. -/
theorem mapGet_mapSet (m : StrMap α) (k k' : String) (v : α) :
    mapGet (mapSet m k v) k' = if k' = k then some v else mapGet m k' := rfl

/-- A three-decimal rational is an integer number of thousandths. -/
theorem is3dec_exists {q : Rat} (h : is3dec q) : ∃ n : Int, q * 1000 = (n : Rat) :=
  ⟨(q * 1000).num, ((Rat.den_eq_one_iff _).mp h).symm⟩

/-- Integers are three-decimal rationals. -/
theorem is3dec_intCast (n : Int) : is3dec ((n : Rat)) := by
  unfold is3dec
  have h : ((n : Rat)) * 1000 = ((n * 1000 : Int) : Rat) := by push_cast; ring
  rw [h, Rat.den_intCast]

/-- Three-decimal rationals are closed under addition. -/
theorem is3dec_add {a b : Rat} (ha : is3dec a) (hb : is3dec b) :
    is3dec (a + b) := by
  obtain ⟨n, hn⟩ := is3dec_exists ha
  obtain ⟨m, hm⟩ := is3dec_exists hb
  unfold is3dec
  have h : (a + b) * 1000 = ((n + m : Int) : Rat) := by
    push_cast
    rw [add_mul, hn, hm]
  rw [h, Rat.den_intCast]

/-- Three-decimal rationals are closed under negation. -/
theorem is3dec_neg {a : Rat} (ha : is3dec a) : is3dec (-a) := by
  obtain ⟨n, hn⟩ := is3dec_exists ha
  unfold is3dec
  have h : (-a) * 1000 = ((-n : Int) : Rat) := by
    push_cast
    rw [neg_mul, hn]
  rw [h, Rat.den_intCast]

/-- The floor of one half is zero. -/
theorem floor_half_eq_zero : (⌊(1/2 : Rat)⌋ : Int) = 0 := by
  rw [Int.floor_eq_iff]
  norm_num

/-- `toFixed(3)` is the identity on values that already have at most
three decimals. -/
theorem round3_of_is3dec {q : Rat} (h : is3dec q) : round3 q = q := by
  obtain ⟨n, hn⟩ := is3dec_exists h
  unfold round3
  rw [hn, Int.floor_int_add, floor_half_eq_zero, add_zero,
    div_eq_iff (by norm_num : (1000 : Rat) ≠ 0)]
  exact hn.symm

/-- `toFixed(3)` preserves non-negativity. -/
theorem round3_nonneg {q : Rat} (h : 0 ≤ q) : 0 ≤ round3 q := by
  unfold round3
  have hfl : (0 : Int) ≤ ⌊q * 1000 + 1/2⌋ := by
    rw [Int.floor_nonneg]
    positivity
  positivity

/-- Evaluation helper for `round3` at concrete arguments. -/
theorem round3_eval (q : Rat) (n : Int) (h1 : (n : Rat) ≤ q * 1000 + 1/2)
    (h2 : q * 1000 + 1/2 < (n : Rat) + 1) : round3 q = (n : Rat) / 1000 := by
  unfold round3
  rw [Int.floor_eq_iff.mpr ⟨h1, by exact_mod_cast h2⟩]

/-- Evaluation helper for `round2` at concrete arguments. -/
theorem round2_eval (q : Rat) (n : Int) (h1 : (n : Rat) ≤ q * 100 + 1/2)
    (h2 : q * 100 + 1/2 < (n : Rat) + 1) : round2 q = (n : Rat) / 100 := by
  unfold round2
  rw [Int.floor_eq_iff.mpr ⟨h1, by exact_mod_cast h2⟩]

/-- C9: updating a product through `updateProduct` — whatever fields the
patch touches, `sellingPrice` included — leaves every sale's committed
`SaleItem` list (and hence each item's snapshotted `unitPrice` and
`total`) unchanged. -/
theorem updateProduct_preserves_saleItems (s : Storage) (pid : String)
    (d : ProductPatch) (saleId : String) :
    getSaleItems (updateProduct s pid d).2 saleId = getSaleItems s saleId := by
  unfold updateProduct
  cases h : mapGet s.products pid <;> rfl

/-- C10: the seeded default account has role `"admin"`, which is not the
literal `"administrator"`: `requireRole(["administrator"])` refuses its
requests with 403, and the administrator bypass of `validateStoreAccess`
does not apply to it (its request for any store is 403). -/
theorem seed_admin_is_not_administrator :
    seedAdminUser.role = "admin" ∧
    seedAdminUser.role ≠ "administrator" ∧
    requireRoleCheck ["administrator"] (some seedAdminSession) =
      .forbiddenRes "Insufficient permissions" ∧
    validateStoreAccess seededStorage seedAdminSession "store-1" =
      .forbiddenRes "Access denied: You don't have permission to access this store" := by
  refine ⟨rfl, by decide, by decide, by decide⟩

/-- C6 counterexample: `GET /api/sales/:id/items` applies no store-scope
check — a cashier assigned to store `A` requesting the items of a sale
whose `storeId` is `B` receives them with 200, not 403. -/
theorem saleItems_route_serves_other_store :
    cashierA.storeId = some "A" ∧
    saleInB.storeId = "B" ∧
    getSaleItemsRoute crossStoreSessions crossStoreStorage "tok2" "s1" =
      .okItems [saleInBItem] := by
  refine ⟨rfl, rfl, by decide⟩

/-- C6 amended: the `validateStoreAccess` middleware itself does behave
as claimed — an administrator passes regardless of store, and any other
principal whose assigned store differs from the requested store is
refused with 403. -/
theorem validateStoreAccess_enforces_store (s : Storage) (sess : Session)
    (reqStoreId : String) :
    (sess.role = "administrator" → validateStoreAccess s sess reqStoreId = .next) ∧
    (∀ u, sess.role ≠ "administrator" → getUser s sess.userId = some u →
      u.storeId ≠ some reqStoreId →
      validateStoreAccess s sess reqStoreId =
        .forbiddenRes "Access denied: You don't have permission to access this store") := by
  constructor
  · intro h
    simp [validateStoreAccess, h]
  · intro u hrole hu hmis
    simp [validateStoreAccess, hrole, hu, hmis]

/-- Witness for the amended C6 theorem at a concrete mismatch: the
store-`A` cashier requesting store `B` data through a
`validateStoreAccess`-guarded endpoint is refused. -/
theorem validateStoreAccess_enforces_store_witness :
    validateStoreAccess crossStoreStorage
      { userId := "u2", username := "bob", role := "cashier" } "B" =
      .forbiddenRes "Access denied: You don't have permission to access this store" :=
  (validateStoreAccess_enforces_store crossStoreStorage
      { userId := "u2", username := "bob", role := "cashier" } "B").2
    cashierA (by decide) (by decide) (by decide)

/-- C7 counterexample: adjusting a product id that does not exist is
not refused — the endpoint answers 201 with a movement, the movement is
recorded for the unknown id, and (the only part that matches the claim)
no stock changes. -/
theorem adjustment_missing_product_still_records :
    mapGet sampleStorage.products "ghost" = none ∧
    ghostRun.2 = .createdMovement ghostMovement ∧
    ghostRun.1.products = sampleStorage.products ∧
    movementsFor ghostRun.1 "ghost" = [ghostMovement] := by
  refine ⟨by decide, by decide, rfl, by decide⟩

/-- C7 amended: for an authenticated, role-authorized caller, the
adjustment endpoint always answers 201 with the recorded movement and
appends it to the product's audit list in the same call; when the
product exists its stock moves by the signed delta, and when it does
not exist the product collection is untouched (but the movement is
still recorded — the operation does not fail). -/
theorem adjustment_applies_delta_and_records (sessions : Sessions) (s : Storage)
    (token productId : String) (q : Rat) (reason : String)
    (sess : Session) (u : User)
    (htok : sessions token = some sess)
    (hrole : (["administrator", "owner", "administrasi"].contains sess.role) = true)
    (hu : getUser s sess.userId = some u) :
    (inventoryAdjustmentRoute sessions s token productId q reason).2 =
      .createdMovement
        { id := "id" ++ toString s.nextId, productId := productId
          mtype := "adjustment", quantity := q, reason := reason
          userId := sess.userId, storeId := u.storeId } ∧
    movementsFor (inventoryAdjustmentRoute sessions s token productId q reason).1 productId =
      movementsFor s productId ++
        [{ id := "id" ++ toString s.nextId, productId := productId
           mtype := "adjustment", quantity := q, reason := reason
           userId := sess.userId, storeId := u.storeId }] ∧
    (∀ p, mapGet s.products productId = some p →
      mapGet (inventoryAdjustmentRoute sessions s token productId q reason).1.products productId =
        some { p with stock := round3 (p.stock + q) }) ∧
    (mapGet s.products productId = none →
      (inventoryAdjustmentRoute sessions s token productId q reason).1.products = s.products) := by
  have hmain : inventoryAdjustmentRoute sessions s token productId q reason =
      ((createInventoryMovement (updateProductStock s productId q).2
          { productId := productId, mtype := "adjustment", quantity := q
            reason := reason, userId := sess.userId, storeId := u.storeId }).2,
        .createdMovement (createInventoryMovement (updateProductStock s productId q).2
          { productId := productId, mtype := "adjustment", quantity := q
            reason := reason, userId := sess.userId, storeId := u.storeId }).1) := by
    unfold inventoryAdjustmentRoute
    rw [htok]
    simp only [hrole, not_true, ite_false, Bool.not_true]
    rw [hu]
  rw [hmain]
  cases hp : mapGet s.products productId with
  | none =>
    have hup : updateProductStock s productId q = (false, s) := by
      unfold updateProductStock
      rw [hp]
    rw [hup]
    refine ⟨rfl, ?_, ?_, fun _ => rfl⟩
    · simp [createInventoryMovement, movementsFor, mapGet_mapSet_self]
    · intro p hp'
      exact Option.noConfusion hp'
  | some p0 =>
    have hup : updateProductStock s productId q =
        (true, { s with products := mapSet s.products productId ({ p0 with stock := round3 (p0.stock + q) }) }) := by
      unfold updateProductStock
      rw [hp]
    rw [hup]
    refine ⟨rfl, ?_, ?_, ?_⟩
    · simp [createInventoryMovement, movementsFor, mapGet_mapSet_self]
    · intro p hp'
      injection hp' with h
      subst h
      simp [createInventoryMovement, mapGet_mapSet_self]
    · intro hn
      exact Option.noConfusion hn

/-- Witness for the amended C7 theorem: adjusting the sample product by
+10 moves its stock through `toFixed(3)` of 45 + 10. -/
theorem adjustment_applies_delta_and_records_witness :
    mapGet (inventoryAdjustmentRoute sampleSessions sampleStorage
        "tok1" "p1" 10 "recount").1.products "p1" =
      some { sampleProduct with stock := round3 (sampleProduct.stock + 10) } :=
  ((adjustment_applies_delta_and_records sampleSessions sampleStorage
      "tok1" "p1" 10 "recount"
      { userId := "u1", username := "alice", role := "administrasi" } sampleUser
      (by decide) (by decide) (by decide)).2.2.1) sampleProduct (by decide)

/-- C1, at the failing input: a one-line sale whose inventory-movement
write throws mid-commit.  The engine restores the product stock to its
snapshot (45) and reports an error — but the `Sale` header and the
`SaleItem` written before the throw remain in the store, contradicting
the all-or-nothing contract stated by the spec and by the function's
own "all operations succeed or none do" comment. -/
theorem failed_commit_leaves_sale_and_item :
    crashedSaleRun.2.error.isSome = true ∧
    (mapGet crashedSaleRun.1.products "p1").map (fun p => p.stock) = some 45 ∧
    (mapGet crashedSaleRun.1.sales "id0").isSome = true ∧
    getSaleItems crashedSaleRun.1 "id0" ≠ [] ∧
    movementsFor crashedSaleRun.1 "p1" = [] := by
  refine ⟨by decide, by decide, by decide, by decide, by decide⟩

/-- Any event that is not a successful login minting token `t` keeps
`t` absent from the session map. -/
theorem applyAuthEvent_absent (s : Storage) (sessions : Sessions) (t : String)
    (e : AuthEvent) (h : sessions t = none) (he : mintsToken s t e = false) :
    applyAuthEvent s sessions e t = none := by
  cases e with
  | login u p tok =>
    simp only [applyAuthEvent, loginAttempt]
    simp only [mintsToken] at he
    cases hu : getUserByUsername s u with
    | none => exact h
    | some usr =>
      rw [hu] at he
      dsimp only at he ⊢
      by_cases hp : usr.password ≠ p
      · rw [if_pos hp]
        exact h
      · rw [if_neg hp]
        push_neg at hp
        by_cases ha : usr.isActive = false
        · rw [if_pos ha]
          exact h
        · rw [if_neg ha]
          have ha' : usr.isActive = true := by
            cases hia : usr.isActive
            · exact absurd hia ha
            · rfl
          rw [hp, ha'] at he
          simp only [beq_self_eq_true, Bool.and_true, Bool.true_and] at he
          have htne : ¬ (t = tok) := by
            intro hh
            rw [hh] at he
            simp at he
          unfold mapSet
          rw [if_neg htne]
          exact h
  | logout tok =>
    simp only [applyAuthEvent, mapDelete]
    by_cases h' : t = tok
    · rw [if_pos h']
    · rw [if_neg h']
      exact h
  | request tok => exact h

/-- A token absent from the session map stays absent across any event
sequence containing no successful login that mints it. -/
theorem applyAuthEvents_absent (s : Storage) (t : String) :
    ∀ (es : List AuthEvent) (sessions : Sessions),
    sessions t = none → (∀ e ∈ es, mintsToken s t e = false) →
    applyAuthEvents s sessions es t = none := by
  intro es
  induction es with
  | nil =>
    intro sessions h _
    exact h
  | cons e es ih =>
    intro sessions h hall
    exact ih _ (applyAuthEvent_absent s sessions t e h (hall e (List.mem_cons_self e es)))
      (fun e' he' => hall e' (List.mem_cons_of_mem e he'))

/-- C8: once a token is destroyed by logout, every later request bearing
it is answered 401 across any continuation that contains no successful
login minting that token; a token never minted (starting from the empty
post-restart session map) is likewise always 401; and the only way a
token can appear in the session map is a successful login — no refresh
or renewal transition exists. -/
theorem session_lifecycle (s : Storage) (t : String) (es : List AuthEvent)
    (sessions : Sessions)
    (h : ∀ e ∈ es, mintsToken s t e = false) :
    requireAuthCheck (applyAuthEvents s (applyAuthEvent s sessions (.logout t)) es) t =
      .unauthorizedRes "Authentication required" ∧
    requireAuthCheck (applyAuthEvents s mapEmpty es) t =
      .unauthorizedRes "Authentication required" ∧
    (∀ (S : Sessions) (e : AuthEvent), applyAuthEvent s S e t ≠ none →
      S t ≠ none ∨ mintsToken s t e = true) := by
  have habs1 : applyAuthEvents s (applyAuthEvent s sessions (.logout t)) es t = none :=
    applyAuthEvents_absent s t es _ (by simp [applyAuthEvent, mapDelete]) h
  have habs2 : applyAuthEvents s mapEmpty es t = none :=
    applyAuthEvents_absent s t es _ rfl h
  refine ⟨?_, ?_, ?_⟩
  · unfold requireAuthCheck
    rw [habs1]
  · unfold requireAuthCheck
    rw [habs2]
  · intro S e hne
    by_cases hS : S t = none
    · right
      cases hmt : mintsToken s t e with
      | true => rfl
      | false => exact absurd (applyAuthEvent_absent s S t e hS hmt) hne
    · left
      exact hS

/-- Witness for C8: after logging the sample session's token out, a
trace with a wrong-password login, an unrelated request and an
unrelated logout still leaves requests on that token answered 401. -/
theorem session_lifecycle_witness :
    requireAuthCheck (applyAuthEvents sampleStorage
        (applyAuthEvent sampleStorage sampleSessions (.logout "t9")) authTrace) "t9" =
      .unauthorizedRes "Authentication required" :=
  (session_lifecycle sampleStorage "t9" authTrace sampleSessions (by decide)).1

/-- The head items of a cart all pass validation, so `validateItems`
reaches the first failing line and reports its shortfall. -/
theorem validateItems_first_short (s : Storage) :
    ∀ (pre : List CartItem) (it : CartItem) (post : List CartItem) (p : Product),
    (∀ it' ∈ pre, ∃ q, mapGet s.products it'.productId = some q ∧
      ¬ (q.stock < it'.quantity)) →
    mapGet s.products it.productId = some p →
    p.stock < it.quantity →
    validateItems s (pre ++ it :: post) =
      some (.insufficientStock p.name p.stock it.quantity) := by
  intro pre
  induction pre with
  | nil =>
    intro it post p _ hp hshort
    simp [validateItems, hp, hshort]
  | cons a rest ih =>
    intro it post p hpre hp hshort
    obtain ⟨q, hq, hnlt⟩ := hpre a (List.mem_cons_self a rest)
    rw [List.cons_append]
    simp only [validateItems, hq, if_neg hnlt]
    exact ih it post p (fun it' h' => hpre it' (List.mem_cons_of_mem a h')) hp hshort

/-- C2: when stock validation fails at line `k` of the cart (all earlier
lines pass, line `k`'s product has less stock than requested), the whole
sale fails with an insufficient-stock error naming the offending product
and the available and requested amounts, and the storage is returned
exactly as it was — no Sale, SaleItem or stock mutation for any line. -/
theorem insufficient_stock_aborts_whole_sale (s : Storage) (d : InsertSale)
    (crash : Option Nat) (pre post : List CartItem) (it : CartItem) (p : Product)
    (hpre : ∀ it' ∈ pre, ∃ q, mapGet s.products it'.productId = some q ∧
      ¬ (q.stock < it'.quantity))
    (hp : mapGet s.products it.productId = some p)
    (hshort : p.stock < it.quantity) :
    processSaleAtomic s d (pre ++ it :: post) crash =
      (s, { sale := none, items := []
            error := some (.insufficientStock p.name p.stock it.quantity) }) := by
  unfold processSaleAtomic
  rw [validateItems_first_short s pre it post p hpre hp hshort]

/-- Witness for C2: a two-line cart over the sample store whose second
line requests 100 units against a stock of 45 is rejected whole, naming
the product and the 45/100 amounts, with the storage unchanged. -/
theorem insufficient_stock_aborts_whole_sale_witness :
    processSaleAtomic sampleStorage sampleSaleData ([sampleItem] ++ bigItem :: []) none =
      (sampleStorage,
       { sale := none, items := []
         error := some (.insufficientStock "Widget" 45 100) }) :=
  insufficient_stock_aborts_whole_sale sampleStorage sampleSaleData none
    [sampleItem] [] bigItem sampleProduct
    (by intro it' h'
        rw [List.mem_singleton] at h'
        subst h'
        exact ⟨sampleProduct, by decide, by decide⟩)
    (by decide) (by decide)

/-- C3 counterexample: the stock-adjustment path has no lower-bound
check — adjusting the sample product (stock 45) by −50 through the
endpoint leaves its committed stock at −5. -/
theorem adjustment_drives_stock_negative :
    sampleProduct.stock = 45 ∧
    (mapGet negativeAdjustRun.1.products "p1").map (fun p => p.stock) = some (-5) ∧
    ¬ (0 ≤ (-5 : Rat)) := by
  refine ⟨rfl, ?_, by norm_num⟩
  have hlook : mapGet negativeAdjustRun.1.products "p1" =
      some ({ sampleProduct with stock := round3 ((45 : Rat) + -50) }) := rfl
  rw [hlook]
  have h45 : round3 ((45 : Rat) + -50) = -5 := by
    rw [round3_eval ((45 : Rat) + -50) (-5000) (by norm_num) (by norm_num)]
    norm_num
  simp [h45]

/-- A cart that passes validation names only existing products with
sufficient stock. -/
theorem validateItems_none_canSatisfy (s : Storage) :
    ∀ items : List CartItem, validateItems s items = none →
    canSatisfy s.products items := by
  intro items
  induction items with
  | nil =>
    intro _ it hmem
    cases hmem
  | cons it rest ih =>
    intro h it' hmem
    unfold validateItems at h
    cases hp : mapGet s.products it.productId with
    | none =>
      rw [hp] at h
      cases h
    | some p =>
      rw [hp] at h
      dsimp only at h
      by_cases hlt : p.stock < it.quantity
      · rw [if_pos hlt] at h
        cases h
      · rw [if_neg hlt] at h
        cases hmem with
        | head => exact ⟨p, hp, le_of_not_lt hlt⟩
        | tail _ hmem' => exact ih h it' hmem'

/-- Setting a product with non-negative stock preserves the store-wide
non-negativity invariant. -/
theorem allStockNonneg_set {m : StrMap Product} (h : allStockNonneg m)
    {p : Product} (hp : 0 ≤ p.stock) (pid : String) :
    allStockNonneg (mapSet m pid p) := by
  intro pid' p' hp'
  rw [mapGet_mapSet] at hp'
  by_cases he : pid' = pid
  · rw [if_pos he] at hp'
    injection hp' with hh
    subst hh
    exact hp
  · rw [if_neg he] at hp'
    exact h pid' p' hp'

/-- The commit loop preserves stock non-negativity when the cart's
lines reference pairwise-distinct products each of whose stock covers
its requested quantity. -/
theorem commitItems_stock_nonneg (userId saleId : String) (crash : Option Nat) :
    ∀ (items : List CartItem) (s : Storage) (acc : List SaleItem) (n : Nat),
    allStockNonneg s.products → canSatisfy s.products items →
    (items.map (fun it => it.productId)).Nodup →
    allStockNonneg (commitItems userId saleId crash items s acc n).1.products := by
  intro items
  induction items with
  | nil =>
    intro s acc n h0 _ _
    exact h0
  | cons it rest ih =>
    intro s acc n h0 hcan hnd
    obtain ⟨p, hp, hle⟩ := hcan it (List.mem_cons_self it rest)
    rw [List.map_cons, List.nodup_cons] at hnd
    obtain ⟨hnotmem, hnd'⟩ := hnd
    unfold commitItems
    by_cases hc1 : crash = some n
    · rw [if_pos hc1]
      exact h0
    · rw [if_neg hc1]
      dsimp only
      by_cases hc2 : crash = some (n + 1)
      · rw [if_pos hc2]
        exact h0
      · rw [if_neg hc2]
        have hm : mapGet (createSaleItem s
            { saleId := saleId, productId := it.productId, quantity := it.quantity
              unitPrice := it.unitPrice, total := it.total }).2.products it.productId =
            some p := hp
        have hup : updateProductStock (createSaleItem s
            { saleId := saleId, productId := it.productId, quantity := it.quantity
              unitPrice := it.unitPrice, total := it.total }).2 it.productId (-it.quantity) =
            (true, { (createSaleItem s
              { saleId := saleId, productId := it.productId, quantity := it.quantity
                unitPrice := it.unitPrice, total := it.total }).2 with
              products := mapSet s.products it.productId
                ({ p with stock := round3 (p.stock + -it.quantity) }) }) := by
          unfold updateProductStock
          rw [hm]
          rfl
        rw [hup]
        have hnew : (0 : Rat) ≤ round3 (p.stock + -it.quantity) :=
          round3_nonneg (by linarith)
        have hmap : allStockNonneg (mapSet s.products it.productId
            ({ p with stock := round3 (p.stock + -it.quantity) })) :=
          allStockNonneg_set h0 hnew it.productId
        by_cases hc3 : crash = some (n + 2)
        · rw [if_pos hc3]
          exact hmap
        · rw [if_neg hc3]
          dsimp only
          refine ih _ _ _ hmap ?_ hnd'
          intro it' hmem'
          obtain ⟨q, hq, hqle⟩ := hcan it' (List.mem_cons_of_mem it hmem')
          refine ⟨q, ?_, hqle⟩
          have hne : it'.productId ≠ it.productId := by
            intro hh
            exact hnotmem (hh ▸ List.mem_map_of_mem (fun x => x.productId) hmem')
          show mapGet (mapSet s.products it.productId
            ({ p with stock := round3 (p.stock + -it.quantity) })) it'.productId = some q
          rw [mapGet_mapSet, if_neg hne]
          exact hq

/-- C3 amended: a sale committed through `processSaleAtomic` whose cart
lines reference pairwise-distinct products leaves every product stock
non-negative (validation guarantees each line is covered, and the
rollback path restores the snapshot); the adjustment path, by contrast,
applies its delta unchecked and can drive stock negative. -/
theorem sale_preserves_stock_nonneg (s : Storage) (d : InsertSale)
    (items : List CartItem) (crash : Option Nat)
    (h0 : allStockNonneg s.products)
    (hnd : (items.map (fun it => it.productId)).Nodup) :
    allStockNonneg (processSaleAtomic s d items crash).1.products := by
  unfold processSaleAtomic
  cases hv : validateItems s items with
  | some e => exact h0
  | none =>
    dsimp only
    by_cases hc : crash = some 0
    · rw [if_pos hc]
      exact h0
    · rw [if_neg hc]
      have hcommit := commitItems_stock_nonneg d.userId (createSale s d).1.id crash
        items (createSale s d).2 [] 1 h0 (validateItems_none_canSatisfy s items hv) hnd
      split
      · exact hcommit
      · exact h0

/-- Witness for the amended C3 theorem: committing the 3-unit sample
sale keeps every stock non-negative. -/
theorem sale_preserves_stock_nonneg_witness :
    allStockNonneg (processSaleAtomic sampleStorage sampleSaleData
      [sampleItem] none).1.products :=
  sale_preserves_stock_nonneg sampleStorage sampleSaleData [sampleItem] none
    (by intro pid p hp
        have hp2 : mapGet (mapSet mapEmpty "p1" sampleProduct) pid = some p := hp
        rw [mapGet_mapSet] at hp2
        by_cases he : pid = "p1"
        · rw [if_pos he] at hp2
          injection hp2 with hh
          subst hh
          norm_num [sampleProduct]
        · rw [if_neg he] at hp2
          exact Option.noConfusion hp2)
    (by simp)

/-- C4 counterexample: after one successful 3-unit sale, the only
movement stored for the product carries quantity +3 (type `"out"`), so
the sum of the stored signed quantities is 3 while current stock minus
initial stock is 42 − 45 = −3. -/
theorem movement_sum_mismatch :
    sampleProduct.stock = 45 ∧
    (mapGet oneSaleRun.products "p1").map (fun p => p.stock) = some 42 ∧
    movementQuantitySum oneSaleRun "p1" = 3 ∧
    (3 : Rat) ≠ 42 - 45 := by
  have h42 : round3 ((45 : Rat) + -3) = 42 := by
    rw [round3_eval ((45 : Rat) + -3) 42000 (by norm_num) (by norm_num)]
    norm_num
  refine ⟨rfl, ?_, ?_, by norm_num⟩
  · have hlook : mapGet oneSaleRun.products "p1" =
        some ({ sampleProduct with stock := round3 ((45 : Rat) + -3) }) := rfl
    rw [hlook]
    simp [h42]
  · have hmov : movementsFor oneSaleRun "p1" =
        [{ id := "id2", productId := "p1", mtype := "out", quantity := 3
           reason := "Sale #id0", userId := "u1", storeId := none }] := rfl
    unfold movementQuantitySum
    rw [hmov]
    simp

/-- Appending one movement adds its signed contribution to the sum. -/
theorem signedSumList_append (ms : List Movement) (m : Movement) :
    signedSumList (ms ++ [m]) =
      signedSumList ms + (if m.mtype = "out" then -m.quantity else m.quantity) := by
  unfold signedSumList
  rw [List.map_append, List.sum_append]
  simp

/-- A rational whose denominator is 1 is a three-decimal value. -/
theorem is3dec_of_den_one {q : Rat} (h : q.den = 1) : is3dec q := by
  have hq := (Rat.den_eq_one_iff q).mp h
  unfold is3dec
  rw [← hq]
  have h2 : ((q.num : Rat)) * 1000 = ((q.num * 1000 : Int) : Rat) := by
    push_cast
    ring
  rw [h2, Rat.den_intCast]

/-- The stock-adjustment operation preserves the ledger balance and the
three-decimal shape of stocks. -/
theorem applyOp_adjust_invariant (s : Storage) (init : String → Rat)
    (pid : String) (q : Rat) (r uid : String) (sid : Option String)
    (hL : ledgerBalanced s.products s.inventoryMovements init)
    (h3 : stocks3dec s.products) (hq : is3dec q) :
    ledgerBalanced (applyOp s (.adjust pid q r uid sid)).products
      (applyOp s (.adjust pid q r uid sid)).inventoryMovements init ∧
    stocks3dec (applyOp s (.adjust pid q r uid sid)).products := by
  have happ : applyOp s (.adjust pid q r uid sid) =
      (createInventoryMovement (updateProductStock s pid q).2
        { productId := pid, mtype := "adjustment", quantity := q
          reason := r, userId := uid, storeId := sid }).2 := rfl
  rw [happ]
  cases hp : mapGet s.products pid with
  | none =>
    have hup : updateProductStock s pid q = (false, s) := by
      unfold updateProductStock
      rw [hp]
    rw [hup]
    constructor
    · intro pid' p' hp'
      have hp'' : mapGet s.products pid' = some p' := hp'
      by_cases he : pid' = pid
      · rw [he, hp] at hp''
        exact Option.noConfusion hp''
      · show signedSumList ((mapGet (mapSet s.inventoryMovements pid _) pid').getD []) = _
        rw [mapGet_mapSet_ne _ _ he]
        exact hL pid' p' hp''
    · intro pid' p' hp'
      exact h3 pid' p' hp'
  | some p =>
    have hup : updateProductStock s pid q =
        (true, { s with products := mapSet s.products pid ({ p with stock := round3 (p.stock + q) }) }) := by
      unfold updateProductStock
      rw [hp]
    rw [hup]
    have hstock : round3 (p.stock + q) = p.stock + q :=
      round3_of_is3dec (is3dec_add (h3 pid p hp) hq)
    constructor
    · intro pid' p' hp'
      have hp'' : mapGet (mapSet s.products pid ({ p with stock := round3 (p.stock + q) })) pid' =
          some p' := hp'
      rw [mapGet_mapSet] at hp''
      show signedSumList ((mapGet (mapSet s.inventoryMovements pid
        (((mapGet s.inventoryMovements pid).getD []) ++
          [{ id := "id" ++ toString s.nextId, productId := pid, mtype := "adjustment"
             quantity := q, reason := r, userId := uid, storeId := sid }])) pid').getD []) =
        p'.stock - init pid'
      by_cases he : pid' = pid
      · rw [if_pos he] at hp''
        injection hp'' with hh
        subst hh
        rw [he, mapGet_mapSet_self]
        simp only [Option.getD_some]
        rw [signedSumList_append]
        have hnotout : ¬ (("adjustment" : String) = "out") := by decide
        rw [if_neg hnotout]
        rw [hL pid p hp]
        dsimp only
        rw [hstock]
        ring
      · rw [if_neg he] at hp''
        rw [mapGet_mapSet_ne _ _ he]
        exact hL pid' p' hp''
    · intro pid' p' hp'
      have hp'' : mapGet (mapSet s.products pid ({ p with stock := round3 (p.stock + q) })) pid' =
          some p' := hp'
      rw [mapGet_mapSet] at hp''
      by_cases he : pid' = pid
      · rw [if_pos he] at hp''
        injection hp'' with hh
        subst hh
        dsimp only
        rw [hstock]
        exact is3dec_add (h3 pid p hp) hq
      · rw [if_neg he] at hp''
        exact h3 pid' p' hp''

/-- Without an injected crash the commit loop always finishes. -/
theorem commitItems_none_ok (userId saleId : String) :
    ∀ (items : List CartItem) (s : Storage) (acc : List SaleItem) (n : Nat),
    (commitItems userId saleId none items s acc n).2.2 = true := by
  intro items
  induction items with
  | nil =>
    intro s acc n
    rfl
  | cons it rest ih =>
    intro s acc n
    unfold commitItems
    rw [if_neg (show ¬ ((none : Option Nat) = some n) by simp)]
    rw [if_neg (show ¬ ((none : Option Nat) = some (n + 1)) by simp)]
    rw [if_neg (show ¬ ((none : Option Nat) = some (n + 2)) by simp)]
    exact ih _ _ _

/-- The crash-free commit loop preserves the ledger balance and the
three-decimal shape of stocks, for carts of three-decimal quantities
over existing products. -/
theorem commitItems_ledger (userId saleId : String) (init : String → Rat) :
    ∀ (items : List CartItem) (s : Storage) (acc : List SaleItem) (n : Nat),
    ledgerBalanced s.products s.inventoryMovements init →
    stocks3dec s.products →
    (∀ it ∈ items, is3dec it.quantity) →
    (∀ it ∈ items, (mapGet s.products it.productId).isSome = true) →
    ledgerBalanced (commitItems userId saleId none items s acc n).1.products
      (commitItems userId saleId none items s acc n).1.inventoryMovements init ∧
    stocks3dec (commitItems userId saleId none items s acc n).1.products := by
  intro items
  induction items with
  | nil =>
    intro s acc n hL h3 _ _
    exact ⟨hL, h3⟩
  | cons it rest ih =>
    intro s acc n hL h3 hq hex
    have hit3 : is3dec it.quantity := hq it (List.mem_cons_self it rest)
    obtain ⟨p, hp⟩ := Option.isSome_iff_exists.mp
      (hex it (List.mem_cons_self it rest))
    unfold commitItems
    rw [if_neg (show ¬ ((none : Option Nat) = some n) by simp)]
    rw [if_neg (show ¬ ((none : Option Nat) = some (n + 1)) by simp)]
    rw [if_neg (show ¬ ((none : Option Nat) = some (n + 2)) by simp)]
    have hm : mapGet (createSaleItem s
        { saleId := saleId, productId := it.productId, quantity := it.quantity
          unitPrice := it.unitPrice, total := it.total }).2.products it.productId =
        some p := hp
    have hup : updateProductStock (createSaleItem s
        { saleId := saleId, productId := it.productId, quantity := it.quantity
          unitPrice := it.unitPrice, total := it.total }).2 it.productId (-it.quantity) =
        (true, { (createSaleItem s
          { saleId := saleId, productId := it.productId, quantity := it.quantity
            unitPrice := it.unitPrice, total := it.total }).2 with
          products := mapSet s.products it.productId
            ({ p with stock := round3 (p.stock + -it.quantity) }) }) := by
      unfold updateProductStock
      rw [hm]
      rfl
    rw [hup]
    have hstock : round3 (p.stock + -it.quantity) = p.stock + -it.quantity :=
      round3_of_is3dec (is3dec_add (h3 it.productId p hp) (is3dec_neg hit3))
    refine ih _ _ _ ?_ ?_ (fun it' h' => hq it' (List.mem_cons_of_mem it h'))
      ?_
    · intro pid' p' hp'
      have hp'' : mapGet (mapSet s.products it.productId
          ({ p with stock := round3 (p.stock + -it.quantity) })) pid' = some p' := hp'
      rw [mapGet_mapSet] at hp''
      show signedSumList ((mapGet (mapSet s.inventoryMovements it.productId
        (((mapGet s.inventoryMovements it.productId).getD []) ++
          [{ id := "id" ++ toString (s.nextId + 1), productId := it.productId
             mtype := "out", quantity := it.quantity
             reason := "Sale #" ++ saleId, userId := userId, storeId := none }])) pid').getD []) =
        p'.stock - init pid'
      by_cases he : pid' = it.productId
      · rw [if_pos he] at hp''
        injection hp'' with hh
        subst hh
        rw [he, mapGet_mapSet_self]
        simp only [Option.getD_some]
        rw [signedSumList_append]
        have hout : (("out" : String) = "out") := rfl
        rw [if_pos hout]
        rw [hL it.productId p hp]
        dsimp only
        rw [hstock]
        ring
      · rw [if_neg he] at hp''
        rw [mapGet_mapSet_ne _ _ he]
        exact hL pid' p' hp''
    · intro pid' p' hp'
      have hp'' : mapGet (mapSet s.products it.productId
          ({ p with stock := round3 (p.stock + -it.quantity) })) pid' = some p' := hp'
      rw [mapGet_mapSet] at hp''
      by_cases he : pid' = it.productId
      · rw [if_pos he] at hp''
        injection hp'' with hh
        subst hh
        dsimp only
        rw [hstock]
        exact is3dec_add (h3 it.productId p hp) (is3dec_neg hit3)
      · rw [if_neg he] at hp''
        exact h3 pid' p' hp''
    · intro it' h'
      have hex' := hex it' (List.mem_cons_of_mem it h')
      obtain ⟨p', hp'⟩ := Option.isSome_iff_exists.mp hex'
      show (mapGet (mapSet s.products it.productId
        ({ p with stock := round3 (p.stock + -it.quantity) })) it'.productId).isSome = true
      rw [mapGet_mapSet]
      by_cases he : it'.productId = it.productId
      · rw [if_pos he]
        rfl
      · rw [if_neg he, hp']
        rfl

/-- A crash-free sale through `processSaleAtomic` preserves the ledger
balance and the three-decimal shape of stocks. -/
theorem applyOp_sell_invariant (s : Storage) (init : String → Rat)
    (d : InsertSale) (items : List CartItem)
    (hL : ledgerBalanced s.products s.inventoryMovements init)
    (h3 : stocks3dec s.products)
    (hq : ∀ it ∈ items, is3dec it.quantity) :
    ledgerBalanced (applyOp s (.sell d items)).products
      (applyOp s (.sell d items)).inventoryMovements init ∧
    stocks3dec (applyOp s (.sell d items)).products := by
  have happ : applyOp s (.sell d items) = (processSaleAtomic s d items none).1 := rfl
  rw [happ]
  unfold processSaleAtomic
  cases hv : validateItems s items with
  | some e => exact ⟨hL, h3⟩
  | none =>
    dsimp only
    rw [if_neg (show ¬ ((none : Option Nat) = some 0) by simp)]
    have hok := commitItems_none_ok d.userId (createSale s d).1.id items
      (createSale s d).2 [] 1
    have hcan := validateItems_none_canSatisfy s items hv
    have hres := commitItems_ledger d.userId (createSale s d).1.id init items
      (createSale s d).2 [] 1 hL h3 hq
      (by intro it h'
          obtain ⟨p, hp, _⟩ := hcan it h'
          show (mapGet s.products it.productId).isSome = true
          rw [hp]
          rfl)
    rw [if_pos hok]
    exact hres

/-- C4 amended: along any sequence of committed sales and adjustments
whose quantities are multiples of 0.001, the movement ledger stays
balanced — for every existing product, the sum of its movements with
`"out"` entries counted negatively (the engine stores sale movements
with positive quantity and type `"out"`) equals current stock minus
initial stock, and all stocks keep their three-decimal shape. -/
theorem ops_preserve_ledger (init : String → Rat) :
    ∀ (ops : List Op) (s : Storage),
    ledgerBalanced s.products s.inventoryMovements init →
    stocks3dec s.products → ops3dec ops →
    ledgerBalanced (runOps s ops).products (runOps s ops).inventoryMovements init ∧
    stocks3dec (runOps s ops).products := by
  intro ops
  induction ops with
  | nil =>
    intro s hL h3 _
    exact ⟨hL, h3⟩
  | cons op rest ih =>
    intro s hL h3 hops
    obtain ⟨hop, hrest⟩ := hops
    cases op with
    | sell d items =>
      obtain ⟨hL', h3'⟩ := applyOp_sell_invariant s init d items hL h3 hop
      exact ih _ hL' h3' hrest
    | adjust pid q r uid sid =>
      obtain ⟨hL', h3'⟩ := applyOp_adjust_invariant s init pid q r uid sid hL h3 hop
      exact ih _ hL' h3' hrest

/-- Witness for the amended C4 theorem: one committed 3-unit sale over
the sample store keeps the out-counted ledger balanced against initial
stock 45. -/
theorem ops_preserve_ledger_witness :
    ledgerBalanced (runOps sampleStorage [Op.sell sampleSaleData [sampleItem]]).products
      (runOps sampleStorage [Op.sell sampleSaleData [sampleItem]]).inventoryMovements
      (fun _ => 45) :=
  (ops_preserve_ledger (fun _ => 45) [Op.sell sampleSaleData [sampleItem]] sampleStorage
    (by intro pid p hp
        have hp2 : mapGet (mapSet mapEmpty "p1" sampleProduct) pid = some p := hp
        rw [mapGet_mapSet] at hp2
        by_cases he : pid = "p1"
        · rw [if_pos he] at hp2
          injection hp2 with hh
          subst hh
          show signedSumList ((mapGet mapEmpty pid).getD []) = sampleProduct.stock - 45
          norm_num [signedSumList, mapGet, mapEmpty, sampleProduct]
        · rw [if_neg he] at hp2
          exact Option.noConfusion hp2)
    (by intro pid p hp
        have hp2 : mapGet (mapSet mapEmpty "p1" sampleProduct) pid = some p := hp
        rw [mapGet_mapSet] at hp2
        by_cases he : pid = "p1"
        · rw [if_pos he] at hp2
          injection hp2 with hh
          subst hh
          exact is3dec_of_den_one rfl
        · rw [if_neg he] at hp2
          exact Option.noConfusion hp2)
    (by refine ⟨?_, trivial⟩
        intro it h'
        rw [List.mem_singleton] at h'
        subst h'
        exact is3dec_of_den_one rfl)).1

/-- The validation loop of the sales route reads only `productId` and
`quantity` of each request line: forging the per-line client price
field does not change its result. -/
theorem buildValidatedItems_ignores_clientPrice (s : Storage) (reqStoreId : String)
    (f : ReqItem → Rat) :
    ∀ items : List ReqItem,
    buildValidatedItems s reqStoreId
      (items.map (fun it => { it with clientUnitPrice := f it })) =
      buildValidatedItems s reqStoreId items := by
  intro items
  induction items with
  | nil => rfl
  | cons it rest ih =>
    simp only [List.map_cons, buildValidatedItems, ih]

/-- `specSubtotal` over a cons. -/
theorem specSubtotal_cons (s : Storage) (it : ReqItem) (rest : List ReqItem) :
    specSubtotal s (it :: rest) =
      (match mapGet s.products it.productId with
       | some p => p.sellingPrice * it.quantity
       | none => 0) + specSubtotal s rest := by
  simp [specSubtotal]

/-- When the validation loop succeeds, the subtotal it returns is the
sum of the server-side `sellingPrice × quantity` over the cart lines. -/
theorem buildValidatedItems_subtotal (s : Storage) (reqStoreId : String) :
    ∀ (items : List ReqItem) (vs : List CartItem) (sub : Rat),
    buildValidatedItems s reqStoreId items = .ok (vs, sub) →
    sub = specSubtotal s items := by
  intro items
  induction items with
  | nil =>
    intro vs sub h
    unfold buildValidatedItems at h
    injection h with h2
    injection h2 with h3 h4
    rw [← h4]
    simp [specSubtotal]
  | cons it rest ih =>
    intro vs sub h
    unfold buildValidatedItems at h
    by_cases hbad : it.productId = "" ∨ it.quantity ≤ 0
    · rw [if_pos hbad] at h
      cases h
    · rw [if_neg hbad] at h
      cases hp : mapGet s.products it.productId with
      | none =>
        rw [hp] at h
        cases h
      | some p =>
        rw [hp] at h
        dsimp only at h
        by_cases hst : p.storeId ≠ reqStoreId
        · rw [if_pos hst] at h
          cases h
        · rw [if_neg hst] at h
          by_cases hact : p.isActive = false
          · rw [if_pos hact] at h
            cases h
          · rw [if_neg hact] at h
            by_cases hlt : p.stock < it.quantity
            · rw [if_pos hlt] at h
              cases h
            · rw [if_neg hlt] at h
              cases hrec : buildValidatedItems s reqStoreId rest with
              | error e =>
                rw [hrec] at h
                cases h
              | ok pr =>
                obtain ⟨vs', sub'⟩ := pr
                rw [hrec] at h
                dsimp only at h
                injection h with h2
                injection h2 with h3 h4
                rw [← h4, specSubtotal_cons, hp]
                rw [ih vs' sub' hrec]

/-- The sale header committed by `processSaleAtomic` carries exactly
the total the caller computed into `saleData`. -/
theorem processSaleAtomic_sale_total (s : Storage) (d : InsertSale)
    (items : List CartItem) (crash : Option Nat) (sale : Sale)
    (h : (processSaleAtomic s d items crash).2.sale = some sale) :
    sale.total = d.total := by
  unfold processSaleAtomic at h
  cases hv : validateItems s items with
  | some e =>
    rw [hv] at h
    cases h
  | none =>
    rw [hv] at h
    dsimp only at h
    by_cases hc : crash = some 0
    · rw [if_pos hc] at h
      cases h
    · rw [if_neg hc] at h
      split at h
      · injection h with hh
        rw [← hh]
        rfl
      · cases h

/-- C5: the stored total of every accepted sale is the server-computed
subtotal (current `sellingPrice` × requested quantity, summed) times
1.085, rounded to two decimals — and the handler's outcome is invariant
under forging the client-side unit prices and totals, so a forged cart
yields the server-side number, not the forged one. -/
theorem sale_total_server_computed (s : Storage) (userId reqStoreId : String)
    (body : SalesRequestBody) (crash : Option Nat) (f : ReqItem → Rat)
    (ct cx : Option Rat) :
    postSales s userId reqStoreId
      { items := body.items.map (fun it => { it with clientUnitPrice := f it })
        paymentMethod := body.paymentMethod, customerId := body.customerId
        clientTax := ct, clientTotal := cx } crash =
      postSales s userId reqStoreId body crash ∧
    (∀ st sale its a b c,
      postSales s userId reqStoreId body crash = (st, .created sale its a b c) →
      sale.total = round2 (specSubtotal s body.items * (217/200))) := by
  constructor
  · by_cases hb : body.items = []
    · unfold postSales
      rw [hb]
      rfl
    · unfold postSales
      rw [if_neg (by simpa using hb), if_neg hb,
        buildValidatedItems_ignores_clientPrice]
  · intro st sale its a b c h
    unfold postSales at h
    by_cases hb : body.items = []
    · rw [if_pos hb] at h
      injection h with h1 h2
      cases h2
    · rw [if_neg hb] at h
      by_cases hpm : (["cash", "card", "digital"].contains body.paymentMethod) = true
      · rw [if_neg (not_not_intro hpm)] at h
        cases hv : buildValidatedItems s reqStoreId body.items with
        | error e =>
          rw [hv] at h
          cases e with
          | productWrongStore nm =>
            injection h with h1 h2
            cases h2
          | itemsRequired =>
            injection h with h1 h2
            cases h2
          | invalidPayment =>
            injection h with h1 h2
            cases h2
          | invalidItem =>
            injection h with h1 h2
            cases h2
          | productMissing pid =>
            injection h with h1 h2
            cases h2
          | productInactive nm =>
            injection h with h1 h2
            cases h2
          | insufficient nm av rq =>
            injection h with h1 h2
            cases h2
        | ok pr =>
          obtain ⟨vs, sub⟩ := pr
          rw [hv] at h
          dsimp only at h
          cases herr : (processSaleAtomic s
              { customerId :=
                  match body.customerId with
                  | none => none
                  | some c => if c = "walk-in" then none else some c
                userId := userId, storeId := reqStoreId
                total := round2 (sub + sub * (17 / 200))
                tax := some (round2 (sub * (17 / 200))), discount := some 0
                paymentMethod := body.paymentMethod, status := some "completed" }
              vs crash).2.error with
          | some e =>
            rw [herr] at h
            injection h with h1 h2
            cases h2
          | none =>
            rw [herr] at h
            cases hsale : (processSaleAtomic s
                { customerId :=
                    match body.customerId with
                    | none => none
                    | some c => if c = "walk-in" then none else some c
                  userId := userId, storeId := reqStoreId
                  total := round2 (sub + sub * (17 / 200))
                  tax := some (round2 (sub * (17 / 200))), discount := some 0
                  paymentMethod := body.paymentMethod, status := some "completed" }
                vs crash).2.sale with
            | none =>
              rw [hsale] at h
              injection h with h1 h2
              cases h2
            | some sl =>
              rw [hsale] at h
              injection h with h1 h2
              injection h2 with hsl hits ha hb hc
              have htot := processSaleAtomic_sale_total s _ vs crash sl hsale
              rw [← hsl, htot]
              dsimp only
              rw [buildValidatedItems_subtotal s reqStoreId body.items vs sub hv]
              rw [show specSubtotal s body.items + specSubtotal s body.items * (17/200) =
                specSubtotal s body.items * (217/200) by ring]
      · rw [if_pos hpm] at h
        injection h with h1 h2
        cases h2

/-- Witness for C5: the honest 3-unit cart over the sample store (and
any price-forged variant of it, by the first conjunct) commits a sale
whose stored total is `round2((20 × 3) × 1.085)`. -/
theorem sale_total_server_computed_witness :
    c5Sale.total = round2 (specSubtotal sampleStorage honestBody.items * (217/200)) :=
  (sale_total_server_computed sampleStorage "u1" "storeA" honestBody none
      (fun _ => 999) (some 1) (some 2)).2
    (postSales sampleStorage "u1" "storeA" honestBody none).1
    c5Sale [c5SaleItem] (round2 c5Sub) (round2 (c5Sub * (17 / 200)))
    (round2 (c5Sub + c5Sub * (17 / 200))) rfl

end POS
